import Mathlib

/-!
Verification of the connection event loop of bleyboard (`src/main.rs`).

The embedding mirrors the body of `main`: the advertising startup sequence
(lines 100-118 and 230), the mutable loop context
`(read_buf, reader_opt, writer_opt)` (lines 256-258), the four branches of
the `tokio::select!` loop (lines 261-320), and the teardown after the loop
(lines 322-328).  Bytes are `Nat`; host handles are records carrying an
identifier and the negotiated MTU; the outcome of every external await
(accept result, read result, write result) is passed in as data, since the
host is outside the program.
-/

namespace Bleyboard

/-- A `bluer::gatt::CharacteristicReader`: the inbound byte stream obtained by
accepting a write-io request.  Only its identity and MTU matter to the loop. -/
structure CharacteristicReader where
  id : Nat
  mtu : Nat
deriving Repr, DecidableEq

/-- A `bluer::gatt::CharacteristicWriter`: the outbound notify stream. -/
structure CharacteristicWriter where
  id : Nat
  mtu : Nat
deriving Repr, DecidableEq

/-- Outcome of `req.accept()` on a write-io request (line 279): the host either
yields a reader or fails with an error message. -/
inductive AcceptResult where
  | accepted (r : CharacteristicReader)
  | failed (msg : String)
deriving Repr, DecidableEq

/-- A `CharacteristicWriteIoRequest` together with the outcome its `accept()`
call would have (the host decides it; we carry it as data). -/
structure WriteIoRequest where
  mtu : Nat
  accept : AcceptResult
deriving Repr, DecidableEq

/-- `bluer::gatt::local::CharacteristicControlEvent` (lines 276-284). -/
inductive CharacteristicControlEvent where
  | write (req : WriteIoRequest)
  | notify (notifier : CharacteristicWriter)
deriving Repr, DecidableEq

/-- The mutable state of the event loop (lines 256-258): the receive buffer and
the two optional stream handles. -/
structure LoopCtx where
  read_buf : List Nat
  reader_opt : Option CharacteristicReader
  writer_opt : Option CharacteristicWriter
deriving Repr, DecidableEq

/-- How one handled select branch leaves the loop: keep looping (`next`),
leave the loop via `break` (lines 265, 269, 285) and proceed to teardown
(`exitLoop`), or return early from `main` with an error via the `?` operator
on line 279 (`errExit`). -/
inductive StepOutcome where
  | next (s : LoopCtx)
  | exitLoop (s : LoopCtx)
  | errExit (msg : String) (s : LoopCtx)
deriving Repr, DecidableEq

/-- True exactly when the outcome keeps the loop running. -/
def StepOutcome.isNext : StepOutcome → Bool
  | .next _ => true
  | _ => false

/-- The handler of the `char_control.next()` branch (lines 271-286).
On a write event the receive buffer is resized to the MTU first
(line 278), then `accept()` is tried: success installs the reader, failure
propagates out of `main` through `?` (line 279).  A notify event installs the
writer (line 283).  `none` from the stream means the control channel closed:
`break` (line 285). -/
def handleControlEvent (s : LoopCtx) (evt : Option CharacteristicControlEvent) : StepOutcome :=
  match evt with
  | some (.write req) =>
    match req.accept with
    | .accepted r => .next { s with read_buf := List.replicate req.mtu 0, reader_opt := some r }
    | .failed msg => .errExit msg { s with read_buf := List.replicate req.mtu 0 }
  | some (.notify notifier) => .next { s with writer_opt := some notifier }
  | none => .exitLoop s

/-- Resolution of `reader.read(&mut read_buf)`: `ok data` stands for `Ok(n)`
where `data` is the `n` bytes the read deposited at the front of the buffer
(`ok []` is `Ok(0)`, the peer-initiated close); `err` is a stream error. -/
inductive ReadOutcome where
  | ok (data : List Nat)
  | err
deriving Repr, DecidableEq

/-- The handler of the read branch (lines 293-317).  `writeOk` is whether the
`write_all` on line 308 would succeed.  The result is `none` when the handler
panics: that happens exactly on `writer_opt.as_mut().unwrap()` with
`writer_opt == None` (line 308).  Otherwise it returns the new state and the
list of payloads passed to write calls, in order. -/
def handleRead (s : LoopCtx) (res : ReadOutcome) (writeOk : Bool) :
    Option (LoopCtx × List (List Nat)) :=
  match res with
  | .err => some ({ s with reader_opt := none }, [])
  | .ok data =>
    if data.isEmpty then
      some ({ s with reader_opt := none }, [])
    else
      match s.writer_opt with
      | none => none
      | some _ =>
        if writeOk then
          some ({ s with read_buf := data ++ s.read_buf.drop data.length },
                [(data ++ s.read_buf.drop data.length).take data.length])
        else
          some ({ s with read_buf := data ++ s.read_buf.drop data.length, writer_opt := none },
                [(data ++ s.read_buf.drop data.length).take data.length])

/-- What the fourth select arm awaits (lines 288-292): a read from the
installed reader when the guard `Some(reader) if writer_opt.is_some()` holds,
and `future::pending()` otherwise. -/
inductive ReadBranch where
  | readFrom (r : CharacteristicReader)
  | pending
deriving Repr, DecidableEq

/-- The future selected by the read arm, from the match on lines 289-292. -/
def readBranch (s : LoopCtx) : ReadBranch :=
  match s.reader_opt with
  | some reader => if s.writer_opt.isSome then .readFrom reader else .pending
  | none => .pending

/-- Whether the read arm is `future::pending()` (never resolves). -/
def ReadBranch.isPending : ReadBranch → Bool
  | .pending => true
  | .readFrom _ => false

/-- One resolvable branch of the `tokio::select!` (lines 262-318):
advertisement sleep elapsing, a line on stdin, a characteristic control event
(with `ctrl none` for stream end), or the read future resolving. -/
inductive LoopEvent where
  | advTimeout
  | stdinLine
  | ctrl (evt : Option CharacteristicControlEvent)
  | readResolved (res : ReadOutcome) (writeOk : Bool)
deriving Repr, DecidableEq

/-- Whether a branch is in the active wait set in state `s`: the first three
arms always are; the read arm only when its future is not pending. -/
def eventReady (s : LoopCtx) : LoopEvent → Bool
  | .readResolved _ _ => !(readBranch s).isPending
  | _ => true

/-- One iteration of the loop: dispatch on the branch that resolved.
The two timer/stdin arms `break` (lines 263-270); control events go through
`handleControlEvent`; a resolved read goes through `handleRead` (`none` being
the unwrap panic). -/
def loopStep (s : LoopCtx) (e : LoopEvent) : Option (StepOutcome × List (List Nat)) :=
  match e with
  | .advTimeout => some (.exitLoop s, [])
  | .stdinLine => some (.exitLoop s, [])
  | .ctrl evt => some (handleControlEvent s evt, [])
  | .readResolved res wOk =>
    match handleRead s res wOk with
    | none => none
    | some (s2, tr) => some (.next s2, tr)

/-- Run the loop on a given sequence of resolved branches, accumulating the
write-call trace; stops at the first `break` or error return, and `none`
signals a panic. -/
def runLoop : LoopCtx → List LoopEvent → Option (StepOutcome × List (List Nat))
  | s, [] => some (.next s, [])
  | s, e :: es =>
    match loopStep s e with
    | none => none
    | some (.next s2, tr) =>
      match runLoop s2 es with
      | none => none
      | some (out, trs) => some (out, tr ++ trs)
    | some (out, tr) => some (out, tr)

/-- Process a sequence of control events only (the attach stream of
lines 275-286); `none` when one of them aborted the loop. -/
def processAttachEvents : LoopCtx → List CharacteristicControlEvent → Option LoopCtx
  | s, [] => some s
  | s, e :: es =>
    match handleControlEvent s (some e) with
    | .next s2 => processAttachEvents s2 es
    | _ => none

/-- The reader handle held after an event sequence, per the spec's
"most recent accepted attachment wins" reading: the last successfully
accepted write attachment, else the initial handle. -/
def lastAccepted (init : Option CharacteristicReader)
    (evts : List CharacteristicControlEvent) : Option CharacteristicReader :=
  evts.foldl
    (fun acc e =>
      match e with
      | .write req =>
        match req.accept with
        | .accepted r => some r
        | .failed _ => acc
      | .notify _ => acc)
    init

/-- The writer handle held after an event sequence: the last notify
attachment, else the initial handle. -/
def lastWriterInstalled (init : Option CharacteristicWriter)
    (evts : List CharacteristicControlEvent) : Option CharacteristicWriter :=
  evts.foldl
    (fun acc e =>
      match e with
      | .write _ => acc
      | .notify w => some w)
    init

/-- The phases of the driver: inside the loop (`running`), after a `break`
while the teardown of lines 322-328 runs (`draining`), after teardown
(`stopped`), and after an early `return Err` (`aborted`). -/
inductive Phase where
  | running
  | draining
  | stopped
  | aborted
deriving Repr, DecidableEq

/-- The phase a step outcome puts the driver in. -/
def StepOutcome.phase : StepOutcome → Phase
  | .next _ => .running
  | .exitLoop _ => .draining
  | .errExit _ _ => .aborted

/-- The phase after one loop iteration (`none` when the handler panicked). -/
def stepPhase (s : LoopCtx) (e : LoopEvent) : Option Phase :=
  match loopStep s e with
  | none => none
  | some (out, _) => some out.phase

/-- One release action of the teardown. -/
inductive TeardownAction where
  | dropAppHandle
  | dropAdvHandle
  | graceSleep (secs : Nat)
  | dropWriterSlot
  | dropReaderSlot
deriving Repr, DecidableEq

/-- The teardown performed once the loop exits by `break` (lines 322-328):
`drop(app_handle)`, then `drop(adv_handle)`, then `sleep(1s)`.  The writer
and reader option slots are only dropped afterwards, implicitly at end of
scope, in reverse declaration order (writer before reader). -/
def teardownSequence : List TeardownAction :=
  [.dropAppHandle, .dropAdvHandle, .graceSleep 1, .dropWriterSlot, .dropReaderSlot]

/-- Modelled from the spec for comparison with `teardownSequence`: release
reader, writer, GATT application registration, advertisement lease in that
order, then the grace period. -/
def specTeardownSequence : List TeardownAction :=
  [.dropReaderSlot, .dropWriterSlot, .dropAppHandle, .dropAdvHandle, .graceSleep 1]

/-- Which host resources are still held during teardown. -/
structure HeldResources where
  appHandle : Bool
  advHandle : Bool
  readerSlot : Bool
  writerSlot : Bool
deriving Repr, DecidableEq

/-- Effect of one teardown action on the held resources. -/
def applyTeardownAction (h : HeldResources) : TeardownAction → HeldResources
  | .dropAppHandle => { h with appHandle := false }
  | .dropAdvHandle => { h with advHandle := false }
  | .graceSleep _ => h
  | .dropWriterSlot => { h with writerSlot := false }
  | .dropReaderSlot => { h with readerSlot := false }

/-- Running the whole teardown sequence over the held resources. -/
def runTeardown (h : HeldResources) : HeldResources :=
  teardownSequence.foldl applyTeardownAction h

/-- The phase when the teardown sequence has completed (line 328 reached). -/
def phaseAfterTeardown : Phase := .stopped

/-- The subset of `bluer::ErrorKind` the advertise match distinguishes
(lines 102-117): `InvalidLength` (payload too large), `Failed` (host
rejected), anything else. -/
inductive ErrorKind where
  | invalidLength
  | failed
  | otherKind
deriving Repr, DecidableEq

/-- A `bluer::Error`: a kind plus a message. -/
structure BluerError where
  kind : ErrorKind
  message : String
deriving Repr, DecidableEq

/-- Result of `adapter.advertise(...)` (line 100). -/
inductive AdvertiseResult where
  | ok (handle : Nat)
  | err (e : BluerError)
deriving Repr, DecidableEq

/-- Final outcome of `main`. -/
inductive StartupResult where
  | success
  | failure (e : BluerError)
deriving Repr, DecidableEq

/-- The message logged for an advertise error, per the match arms on
lines 103-116. -/
def advertiseErrorLog (e : BluerError) : String :=
  match e.kind with
  | .invalidLength => "The advertising data is too long."
  | .failed => "Advertising failed: " ++ e.message
  | .otherKind => "Unexpected error: " ++ e.message

/-- Observable effect of the startup sequence. -/
structure StartupTrace where
  gattAttempted : Bool
  enteredLoop : Bool
  loggedMessage : Option String
  outcome : StartupResult
deriving Repr, DecidableEq

/-- The startup sequence of `main` (lines 100-230): advertise first; on any
advertise error log a message and `return Err(err)` (every arm of the match
on lines 102-117 returns), so `serve_gatt_application` (line 230) is never
reached.  On advertise success, GATT registration is attempted; its failure
also aborts (the `?` on line 230), and only on success is the loop entered. -/
def startup (advRes : AdvertiseResult) (gattErr : Option BluerError) : StartupTrace :=
  match advRes with
  | .err e =>
    { gattAttempted := false, enteredLoop := false,
      loggedMessage := some (advertiseErrorLog e), outcome := .failure e }
  | .ok _ =>
    match gattErr with
    | some e2 =>
      { gattAttempted := true, enteredLoop := false,
        loggedMessage := none, outcome := .failure e2 }
    | none =>
      { gattAttempted := true, enteredLoop := true,
        loggedMessage := none, outcome := .success }

/-! Theorems. -/

/-- Taking the length of the left part of an append returns the left part. -/
theorem take_append_self {α : Type} (l₁ l₂ : List α) : (l₁ ++ l₂).take l₁.length = l₁ := by
  induction l₁ with
  | nil => rfl
  | cons a t ih => simp [List.take, ih]

/-- C1 counterexample: with a reader and a writer installed, a write event
whose `accept()` fails does NOT leave the loop running — `handleControlEvent`
yields `errExit`, the early `return Err(err)` produced by the `?` on
line 279, which terminates the program; the claim said the event is dropped
and the loop continues. -/
theorem accept_failure_not_dropped :
    (handleControlEvent ⟨[], some ⟨9, 23⟩, some ⟨5, 23⟩⟩
        (some (.write ⟨23, .failed "boom"⟩))).isNext = false ∧
    handleControlEvent ⟨[], some ⟨9, 23⟩, some ⟨5, 23⟩⟩
        (some (.write ⟨23, .failed "boom"⟩)) =
      .errExit "boom" ⟨List.replicate 23 0, some ⟨9, 23⟩, some ⟨5, 23⟩⟩ := by
  constructor
  · rfl
  · rfl

/-- C1 amended: when accepting a `WriteAttached` event fails, the error
propagates out of the event loop (the `?` on line 279 returns it from
`main`, terminating the program); no handle is replaced, though the receive
buffer has already been resized to the event's MTU. -/
theorem accept_failure_returns_error (s : LoopCtx) (req : WriteIoRequest) (msg : String)
    (hacc : req.accept = .failed msg) :
    handleControlEvent s (some (.write req)) =
      .errExit msg { s with read_buf := List.replicate req.mtu 0 } := by
  simp [handleControlEvent, hacc]

/-- Witness for C1's amended theorem at a concrete failing request. -/
theorem accept_failure_returns_error_witness :
    handleControlEvent ⟨[1, 2], some ⟨9, 23⟩, none⟩ (some (.write ⟨23, .failed "boom"⟩)) =
      .errExit "boom" ⟨List.replicate 23 0, some ⟨9, 23⟩, none⟩ :=
  accept_failure_returns_error ⟨[1, 2], some ⟨9, 23⟩, none⟩ ⟨23, .failed "boom"⟩ "boom" rfl

/-- C2 counterexample: a state with a reader installed but no writer.  The
claim said an installed reader is always part of the active wait set; here
the read arm is `future::pending()` (the guard on line 290 also requires
`writer_opt.is_some()`), so the read branch is excluded from the wait set. -/
theorem reader_without_writer_not_waited :
    (⟨List.replicate 23 0, some ⟨1, 23⟩, none⟩ : LoopCtx).reader_opt.isSome = true ∧
    readBranch ⟨List.replicate 23 0, some ⟨1, 23⟩, none⟩ = .pending ∧
    eventReady ⟨List.replicate 23 0, some ⟨1, 23⟩, none⟩ (.readResolved (.ok [1]) true) =
      false := by
  refine ⟨rfl, rfl, rfl⟩

/-- C2 amended: the read arm is pending (never resolves, hence out of the
wait set and unable to starve the other branches) unless BOTH a reader and a
writer are installed; it is part of the wait set exactly when both are. -/
theorem read_branch_requires_reader_and_writer (s : LoopCtx) (res : ReadOutcome) (wOk : Bool) :
    (readBranch s).isPending = (!s.reader_opt.isSome || !s.writer_opt.isSome) ∧
    eventReady s (.readResolved res wOk) = (s.reader_opt.isSome && s.writer_opt.isSome) := by
  obtain ⟨buf, ro, wo⟩ := s
  cases ro <;> cases wo <;>
    simp [readBranch, ReadBranch.isPending, eventReady]

/-- C3 counterexample: the teardown order the code performs differs from the
order the claim states (the code drops the GATT application handle first,
not the reader). -/
theorem teardown_order_differs_from_spec : teardownSequence ≠ specTeardownSequence := by
  decide

/-- C3 amended: on entering `Draining` the code releases the GATT
application registration, then the advertisement lease, then waits a one
second grace period; the writer and reader slots are only released
afterwards, implicitly at end of scope (writer before reader), after which
the state is `Stopped`.  Running the sequence releases every held
resource. -/
theorem teardown_releases_all_then_stops (h : HeldResources) :
    runTeardown h = ⟨false, false, false, false⟩ ∧
    teardownSequence =
      [.dropAppHandle, .dropAdvHandle, .graceSleep 1, .dropWriterSlot, .dropReaderSlot] ∧
    phaseAfterTeardown = .stopped := by
  obtain ⟨a, b, c, d⟩ := h
  exact ⟨rfl, rfl, rfl⟩

/-- C6: a read resolving with `Ok(0)` (peer close) or with an error drops
only the reader (`reader_opt = None`, lines 297-300 and 313-316); the writer
is untouched and the loop keeps running (the session is not torn down). -/
theorem read_close_or_error_drops_reader (s : LoopCtx) (wOk : Bool) :
    loopStep s (.readResolved (.ok []) wOk) =
      some (.next { s with reader_opt := none }, []) ∧
    loopStep s (.readResolved .err wOk) =
      some (.next { s with reader_opt := none }, []) ∧
    ({ s with reader_opt := none } : LoopCtx).writer_opt = s.writer_opt := by
  refine ⟨rfl, rfl, rfl⟩

/-- C9: from `Running`, expiry of the advertising sleep, a stdin line
(interactive stop) and the control stream ending (`ControlClosed`) each take
the driver to `Draining` (they `break` out of the loop into the teardown),
and the expiry branch is in the wait set in every state, so lease expiry
alone — with no other event — reaches `Draining`. -/
theorem terminal_events_reach_draining (s : LoopCtx) :
    stepPhase s .advTimeout = some .draining ∧
    stepPhase s .stdinLine = some .draining ∧
    stepPhase s (.ctrl none) = some .draining ∧
    eventReady s .advTimeout = true ∧
    runLoop s [.advTimeout] = some (.exitLoop s, []) := by
  refine ⟨rfl, rfl, rfl, rfl, rfl⟩

/-- C4: when the read resolves with `Ok(n)`, `n > 0`, the first `n` bytes of
the receive buffer are exactly the bytes the read deposited, they become the
relay payload (`value`, line 302), and with a writer present and the write
succeeding the whole payload goes out in one `write_all` call (line 308). -/
theorem read_forwards_single_chunk (s : LoopCtx) (w : CharacteristicWriter) (data : List Nat)
    (hw : s.writer_opt = some w) (hd : data ≠ [])
    (_hlen : data.length ≤ s.read_buf.length) :
    handleRead s (.ok data) true =
      some ({ s with read_buf := data ++ s.read_buf.drop data.length }, [data]) := by
  cases data with
  | nil => exact absurd rfl hd
  | cons b bs => simp [handleRead, hw, take_append_self]

set_option maxRecDepth 8192 in
/-- Witness for C4: the echo scenario at MTU 512 — after a write attach and a
notify attach, reading `[0x01, 0x02, 0x03]` forwards exactly that payload as
one chunk. -/
theorem read_forwards_single_chunk_witness :
    handleRead ⟨List.replicate 512 0, some ⟨1, 512⟩, some ⟨2, 512⟩⟩ (.ok [1, 2, 3]) true =
      some (⟨[1, 2, 3] ++ (List.replicate 512 0).drop 3, some ⟨1, 512⟩, some ⟨2, 512⟩⟩,
            [[1, 2, 3]]) ∧
    runLoop ⟨[], none, none⟩
        [.ctrl (some (.write ⟨512, .accepted ⟨1, 512⟩⟩)),
         .ctrl (some (.notify ⟨2, 512⟩)),
         .readResolved (.ok [1, 2, 3]) true] =
      some (.next ⟨[1, 2, 3] ++ (List.replicate 512 0).drop 3, some ⟨1, 512⟩, some ⟨2, 512⟩⟩,
            [[1, 2, 3]]) :=
  ⟨read_forwards_single_chunk ⟨List.replicate 512 0, some ⟨1, 512⟩, some ⟨2, 512⟩⟩ ⟨2, 512⟩
      [1, 2, 3] rfl (by decide) (by decide),
   by rfl⟩

/-- C5 counterexample: a write failure with a reader active leaves the reader
installed, BUT the read arm is then `future::pending()` (no writer), so the
reader cannot actually receive another read until a new writer attaches; the
claim said it remains able to receive further reads. -/
theorem write_failure_still_blocks_reader :
    handleRead ⟨List.replicate 4 0, some ⟨1, 4⟩, some ⟨2, 4⟩⟩ (.ok [9]) false =
      some (⟨[9, 0, 0, 0], some ⟨1, 4⟩, none⟩, [[9]]) ∧
    (⟨[9, 0, 0, 0], some ⟨1, 4⟩, none⟩ : LoopCtx).reader_opt = some ⟨1, 4⟩ ∧
    readBranch ⟨[9, 0, 0, 0], some ⟨1, 4⟩, none⟩ = .pending ∧
    eventReady ⟨[9, 0, 0, 0], some ⟨1, 4⟩, none⟩ (.readResolved (.ok [7]) true) = false := by
  refine ⟨rfl, rfl, rfl, rfl⟩

/-- C5 amended: if forwarding to the writer fails, only the writer is dropped
(`writer_opt = None`, line 310) and the failed payload was still the single
write attempt; the reader slot is untouched, but the read branch is then
pending — further reads can only resolve once a new writer is attached. -/
theorem write_failure_drops_writer_only (s s' : LoopCtx) (w : CharacteristicWriter)
    (data : List Nat) (tr : List (List Nat)) (hw : s.writer_opt = some w) (hd : data ≠ [])
    (hrun : handleRead s (.ok data) false = some (s', tr)) :
    tr = [data] ∧ s'.reader_opt = s.reader_opt ∧ s'.writer_opt = none ∧
      (readBranch s').isPending = true := by
  obtain ⟨buf, ro, wo⟩ := s
  obtain rfl : wo = some w := hw
  cases data with
  | nil => exact absurd rfl hd
  | cons b bs =>
    have h1 : handleRead ⟨buf, ro, some w⟩ (.ok (b :: bs)) false =
        some (⟨(b :: bs) ++ buf.drop (b :: bs).length, ro, none⟩, [b :: bs]) := by
      simp [handleRead, take_append_self]
    rw [h1] at hrun
    simp only [Option.some.injEq, Prod.mk.injEq] at hrun
    obtain ⟨hs', htr⟩ := hrun
    subst hs'
    subst htr
    refine ⟨rfl, rfl, rfl, ?_⟩
    cases ro <;> simp [readBranch, ReadBranch.isPending]

/-- Witness for C5's amended theorem at a concrete write failure. -/
theorem write_failure_drops_writer_only_witness :
    ([[9]] : List (List Nat)) = [[9]] ∧
    (⟨[9, 0, 0, 0], some ⟨1, 4⟩, none⟩ : LoopCtx).reader_opt =
      (⟨List.replicate 4 0, some ⟨1, 4⟩, some ⟨2, 4⟩⟩ : LoopCtx).reader_opt ∧
    (⟨[9, 0, 0, 0], some ⟨1, 4⟩, none⟩ : LoopCtx).writer_opt = none ∧
    (readBranch ⟨[9, 0, 0, 0], some ⟨1, 4⟩, none⟩).isPending = true :=
  write_failure_drops_writer_only ⟨List.replicate 4 0, some ⟨1, 4⟩, some ⟨2, 4⟩⟩
    ⟨[9, 0, 0, 0], some ⟨1, 4⟩, none⟩ ⟨2, 4⟩ [9] [[9]] rfl (by decide) (by decide)

/-- C7: processing any sequence of attach events, the loop holds at most one
reader and at most one writer (the state has a single `Option` slot for
each), and the most recent accepted attachment of each kind wins: the final
reader is the last successfully accepted write attachment, the final writer
the last notify attachment. -/
theorem attach_events_last_wins (s : LoopCtx) (evts : List CharacteristicControlEvent)
    (s' : LoopCtx) (h : processAttachEvents s evts = some s') :
    s'.reader_opt = lastAccepted s.reader_opt evts ∧
    s'.writer_opt = lastWriterInstalled s.writer_opt evts := by
  induction evts generalizing s with
  | nil =>
    simp [processAttachEvents] at h
    subst h
    exact ⟨rfl, rfl⟩
  | cons e es ih =>
    cases e with
    | write req =>
      cases hacc : req.accept with
      | accepted r =>
        have h2 : processAttachEvents
            { s with read_buf := List.replicate req.mtu 0, reader_opt := some r } es =
            some s' := by
          simpa [processAttachEvents, handleControlEvent, hacc] using h
        have h3 := ih _ h2
        simpa [lastAccepted, lastWriterInstalled, hacc] using h3
      | failed msg =>
        simp [processAttachEvents, handleControlEvent, hacc] at h
    | notify wr =>
      have h2 : processAttachEvents { s with writer_opt := some wr } es = some s' := by
        simpa [processAttachEvents, handleControlEvent] using h
      have h3 := ih _ h2
      simpa [lastAccepted, lastWriterInstalled] using h3

/-- Witness for C7: two write attaches and two notify attaches from the empty
state; the second of each kind wins. -/
theorem attach_events_last_wins_witness :
    (⟨List.replicate 23 0, some ⟨3, 23⟩, some ⟨4, 23⟩⟩ : LoopCtx).reader_opt =
      lastAccepted (⟨[], none, none⟩ : LoopCtx).reader_opt
        [.write ⟨16, .accepted ⟨1, 16⟩⟩, .notify ⟨2, 16⟩,
         .write ⟨23, .accepted ⟨3, 23⟩⟩, .notify ⟨4, 23⟩] ∧
    (⟨List.replicate 23 0, some ⟨3, 23⟩, some ⟨4, 23⟩⟩ : LoopCtx).writer_opt =
      lastWriterInstalled (⟨[], none, none⟩ : LoopCtx).writer_opt
        [.write ⟨16, .accepted ⟨1, 16⟩⟩, .notify ⟨2, 16⟩,
         .write ⟨23, .accepted ⟨3, 23⟩⟩, .notify ⟨4, 23⟩] :=
  attach_events_last_wins ⟨[], none, none⟩
    [.write ⟨16, .accepted ⟨1, 16⟩⟩, .notify ⟨2, 16⟩,
     .write ⟨23, .accepted ⟨3, 23⟩⟩, .notify ⟨4, 23⟩]
    ⟨List.replicate 23 0, some ⟨3, 23⟩, some ⟨4, 23⟩⟩ (by decide)

/-- C8: an advertise failure of kind `InvalidLength` (payload too large) or
`Failed` (host rejected) aborts startup: a descriptive message is logged,
`main` returns the error (non-zero process outcome), GATT registration is
never attempted and the event loop is never entered (lines 100-118 precede
line 230). -/
theorem fatal_advertise_error_aborts_startup (e : BluerError) (gattErr : Option BluerError)
    (_hkind : e.kind = .invalidLength ∨ e.kind = .failed) :
    (startup (.err e) gattErr).gattAttempted = false ∧
    (startup (.err e) gattErr).enteredLoop = false ∧
    (startup (.err e) gattErr).outcome = .failure e ∧
    (startup (.err e) gattErr).loggedMessage = some (advertiseErrorLog e) :=
  ⟨rfl, rfl, rfl, rfl⟩

/-- Witness for C8 at a concrete `InvalidLength` advertise failure. -/
theorem fatal_advertise_error_aborts_startup_witness :
    (startup (.err ⟨.invalidLength, "adv"⟩) none).gattAttempted = false ∧
    (startup (.err ⟨.invalidLength, "adv"⟩) none).enteredLoop = false ∧
    (startup (.err ⟨.invalidLength, "adv"⟩) none).outcome = .failure ⟨.invalidLength, "adv"⟩ ∧
    (startup (.err ⟨.invalidLength, "adv"⟩) none).loggedMessage =
      some (advertiseErrorLog ⟨.invalidLength, "adv"⟩) :=
  fatal_advertise_error_aborts_startup ⟨.invalidLength, "adv"⟩ none (Or.inl rfl)

/-- C10: whenever the read arm is in the active wait set (so a read can
resolve at all), a writer is installed, hence the
`writer_opt.as_mut().unwrap()` on line 308 never panics: `loopStep` on a
resolved read never returns the panic marker `none`.  The handler runs
atomically within one loop iteration, so nothing clears the writer between
the guard and the forward. -/
theorem read_handler_never_panics (s : LoopCtx) (res : ReadOutcome) (wOk : Bool)
    (h : eventReady s (.readResolved res wOk) = true) :
    s.writer_opt.isSome = true ∧ loopStep s (.readResolved res wOk) ≠ none := by
  obtain ⟨buf, ro, wo⟩ := s
  cases ro with
  | none => simp [eventReady, readBranch, ReadBranch.isPending] at h
  | some r =>
    cases wo with
    | none => simp [eventReady, readBranch, ReadBranch.isPending] at h
    | some w =>
      refine ⟨rfl, ?_⟩
      cases res with
      | err => simp [loopStep, handleRead]
      | ok data =>
        cases data with
        | nil => simp [loopStep, handleRead]
        | cons b bs => cases wOk <;> simp [loopStep, handleRead]

/-- Witness for C10: with reader and writer installed the read arm is ready
and handling a resolved read does not panic. -/
theorem read_handler_never_panics_witness :
    (⟨[0, 0], some ⟨1, 2⟩, some ⟨2, 2⟩⟩ : LoopCtx).writer_opt.isSome = true ∧
    loopStep ⟨[0, 0], some ⟨1, 2⟩, some ⟨2, 2⟩⟩ (.readResolved (.ok [5]) true) ≠ none :=
  read_handler_never_panics ⟨[0, 0], some ⟨1, 2⟩, some ⟨2, 2⟩⟩ (.ok [5]) true rfl

end Bleyboard
